import Mathlib

/-!
Verification development for the StyleMate wardrobe/stylist application.

The application's state management and response normalization are embedded
shallowly:

* `JValue` models the dynamically typed JavaScript/JSON values flowing out of
  `JSON.parse` and through the response normalizer, together with the JS
  operations the source uses: property access (which throws on `null` and
  `undefined` receivers), the `??` nullish-coalescing operator, the `||`
  truthiness operator, optional chaining, and `Array.prototype.map` (which
  throws on non-array receivers).  Thrown `TypeError`s are modelled with
  `Except Unit`; the source's `try`/`catch` blocks become `match`es on the
  `Except`.
* Typed structures (`ClothingItem`, `OutfitCardData`, ...) mirror the
  TypeScript interfaces in `types.ts` and are used for the components that
  operate on already-normalized data (favorites toggling, the outfit-card
  renderer, the upload loop, the outfit-generation guard).
* Impure identifier generation (`crypto.randomUUID()`) is modelled by an
  explicit `fresh` oracle parameter, and `Date.now()` by an explicit `now`
  parameter.
-/

namespace StyleMate

/-- JavaScript runtime values as they appear in parsed AI payloads and
persisted documents.  `undefined` is JavaScript's `undefined` (the result of
reading an absent property); `null` is JSON `null`. -/
inductive JValue where
  | null
  | undefined
  | bool (b : Bool)
  | num (n : Int)
  | str (s : String)
  | arr (elems : List JValue)
  | obj (fields : List (String × JValue))

/-- `v == null || v == undefined`, the values replaced by `??`. -/
def JValue.nullish : JValue → Bool
  | .null => true
  | .undefined => true
  | _ => false

/-- JavaScript truthiness, as tested by `||` and by `if`. -/
def JValue.truthy : JValue → Bool
  | .null => false
  | .undefined => false
  | .bool b => b
  | .num n => decide (n ≠ 0)
  | .str s => decide (s ≠ "")
  | .arr _ => true
  | .obj _ => true

/-- Whether the value is a JavaScript array (`Array.isArray`). -/
def JValue.isArr : JValue → Bool
  | .arr _ => true
  | _ => false

/-- Property access `v[k]`.  Throws a `TypeError` on a `null`/`undefined`
receiver; yields `undefined` for an absent key or a non-object receiver. -/
def JValue.get : JValue → String → Except Unit JValue
  | .null, _ => .error ()
  | .undefined, _ => .error ()
  | .obj fs, k =>
      .ok (match fs.find? (fun p => p.1 == k) with
           | some p => p.2
           | none => .undefined)
  | _, _ => .ok .undefined

/-- JavaScript `a || b`. -/
def jsOr (a b : JValue) : JValue := if a.truthy then a else b

/-- JavaScript `a ?? b`. -/
def jsCoalesce (a b : JValue) : JValue := if a.nullish then b else a

/-- `v.map((x, i) => f x i)` on a JS value: throws unless `v` is an array,
and rethrows the first exception raised by the callback. -/
def mapIdxE (f : JValue → Nat → Except Unit JValue) :
    List JValue → Nat → Except Unit (List JValue)
  | [], _ => .ok []
  | x :: xs, i =>
      match f x i, mapIdxE f xs (i + 1) with
      | .ok y, .ok ys => .ok (y :: ys)
      | _, _ => .error ()

def jsMapIdx (v : JValue) (f : JValue → Nat → Except Unit JValue) :
    Except Unit (List JValue) :=
  match v with
  | .arr xs => mapIdxE f xs 0
  | _ => .error ()

/-! ## AI Response Normalizer (services/geminiService, `generateStylistResponse`)

The mapping step of `generateStylistResponse` converts the parsed model
payload into the app's `StylistResponse` shape.  Fields whose values the
source passes through untyped are kept as `JValue`; fields the source fills
with constants are typed. -/

/-- The outfit card object built by the normalizer
(`const outfits: OutfitCardData[] = [{ id: "generated-outfit", ... }]`). -/
structure JOutfitCard where
  id : String
  title : String
  description : JValue
  matchScore : Nat
  selectedItemIds : JValue
  missingItems : JValue
  pinterestLooks : JValue
  reasoning : JValue

/-- The `StylistResponse` value returned by `generateStylistResponse`. -/
structure StylistResponseJ where
  mode : String
  message : JValue
  outfits : List JOutfitCard
  suggestions : JValue

/-- One entry of `parsed.inspirationImages.map((p, i) => ({...}))`. -/
def pinFn (p : JValue) (i : Nat) : Except Unit JValue :=
  match p.get "title", p.get "imageUrl", p.get "link" with
  | .ok t, .ok img, .ok lnk =>
      .ok (.obj [("title", jsOr t (.str ("Look " ++ toString (i + 1)))),
                 ("description", .str ""),
                 ("previewImageUrl", jsOr img (.str "")),
                 ("pinterestUrl", jsOr lnk (.str ""))])
  | _, _, _ => .error ()

/-- One shopping option: `item.links?.map(ln => ({storeName: ln.label || "Store",
url: ln.url, price: item.priceRange || "N/A", type: "online"}))`. -/
def linkFn (priceRange : JValue) (ln : JValue) (_i : Nat) : Except Unit JValue :=
  match ln.get "label", ln.get "url" with
  | .ok label, .ok url =>
      .ok (.obj [("storeName", jsOr label (.str "Store")),
                 ("url", url),
                 ("price", jsOr priceRange (.str "N/A")),
                 ("type", .str "online")])
  | _, _ => .error ()

/-- One entry of `parsed.shopping.map((item, i) => {...})`.  `now` stands for
`Date.now()` in the generated id. -/
def missFn (now : Nat) (item : JValue) (i : Nat) : Except Unit JValue :=
  match item.get "links", item.get "name", item.get "priceRange" with
  | .ok links, .ok name, .ok priceRange =>
      -- `item.links?.map(...) || []`: optional chaining short-circuits a
      -- nullish `links` to `undefined`, which `|| []` turns into `[]`; a
      -- produced array is truthy and kept; a non-array `links` throws.
      match (if links.nullish then Except.ok (JValue.arr [])
             else
               match jsMapIdx links (linkFn priceRange) with
               | .ok opts => .ok (.arr opts)
               | .error e => .error e) with
      | .ok opts =>
          .ok (.obj [("id", .str ("missing-" ++ toString i ++ "-" ++ toString now)),
                     ("name", jsOr name (.str ("Item " ++ toString (i + 1)))),
                     ("pinterestQuery", jsOr name (.str "")),
                     ("shoppingOptions", opts)])
      | .error e => .error e
  | _, _, _ => .error ()

/-- The body of the `try` block after `JSON.parse`: the array-normalization
assignments (`parsed.x = parsed.x ?? []`), the two conversion `map`s, and the
construction of the single outfit card.  All property accesses on `parsed`
throw exactly when `parsed` is nullish, and the two `map`s throw when their
receiver is not an array or their callback throws; any throw is caught by the
surrounding `catch`, modelled in `generateStylistResponse` below. -/
def mapStep (parsed : JValue) (now : Nat) : Except Unit StylistResponseJ :=
  match parsed.get "selectedItemIds", parsed.get "inspirationImages",
        parsed.get "shopping", parsed.get "suggestions", parsed.get "message" with
  | .ok sel0, .ok insp0, .ok shop0, .ok sugg0, .ok msg =>
      match jsMapIdx (jsCoalesce insp0 (.arr [])) pinFn,
            jsMapIdx (jsCoalesce shop0 (.arr [])) (missFn now) with
      | .ok looks, .ok missing =>
          .ok { mode := "wardrobe_outfit",
                message := msg,
                outfits := [{ id := "generated-outfit",
                              title := "Your Outfit",
                              description := msg,
                              matchScore := 100,
                              selectedItemIds := jsCoalesce sel0 (.arr []),
                              missingItems := .arr missing,
                              pinterestLooks := .arr looks,
                              reasoning := jsOr msg (.str "") }],
                suggestions := jsCoalesce sugg0 (.arr []) }
      | _, _ => .error ()
  | _, _, _, _, _ => .error ()

/-- `generateStylistResponse` from the parsed payload on: the mapping step
with its `catch` fallback (`{message: "Network issue occurred.", outfits: [],
suggestions: ["Try again"]}`). -/
def generateStylistResponse (parsed : JValue) (now : Nat) : StylistResponseJ :=
  match mapStep parsed now with
  | .ok r => r
  | .error _ =>
      { mode := "wardrobe_outfit",
        message := .str "Network issue occurred.",
        outfits := [],
        suggestions := .arr [.str "Try again"] }

/-- The older `generateStylistResponse` variant (markdown-blob contract): its
success path reads `result.selectedItemIds || []`, `result.message`, and
`result.suggestions || []` and builds one constant card with empty
`missingItems`/`pinterestLooks`. -/
def altMapStep (result : JValue) : Except Unit StylistResponseJ :=
  match result.get "selectedItemIds", result.get "message", result.get "suggestions" with
  | .ok sel, .ok msg, .ok sugg =>
      .ok { mode := "wardrobe_outfit",
            message := jsOr msg (.str "Here is a suggestion."),
            outfits := [{ id := "generated-outfit",
                          title := "Your Outfit",
                          description := .str "Generated from wardrobe",
                          matchScore := 100,
                          selectedItemIds := jsOr sel (.arr []),
                          missingItems := .arr [],
                          pinterestLooks := .arr [],
                          reasoning := .str "" }],
            suggestions := jsOr sugg (.arr []) }
  | _, _, _ => .error ()

/-! ## Typed data model (types.ts) -/

/-- `ClothingItem` from types.ts.  `description` is optional there
(`description?: string`). -/
structure ClothingItem where
  id : String
  image : String
  category : String
  color : String
  season : List String
  style : List String
  description : Option String
deriving DecidableEq

structure ShoppingOption where
  storeName : String
  url : String
  price : String
  type : String
  location : Option String
deriving DecidableEq

structure MissingItem where
  id : String
  name : String
  pinterestQuery : String
  shoppingOptions : List ShoppingOption
deriving DecidableEq

structure PinterestLook where
  title : String
  description : String
  previewImageUrl : String
  pinterestUrl : String
deriving DecidableEq

/-- `OutfitCardData` from types.ts, as consumed by the renderer and the
favorites store. -/
structure OutfitCardData where
  id : String
  title : String
  description : String
  matchScore : Nat
  selectedItemIds : List String
  missingItems : List MissingItem
  pinterestLooks : List PinterestLook
  reasoning : String
deriving DecidableEq

/-! ## Persistent Collection Store (App.tsx)

The wardrobe `useState` initializer parses the persisted document and repairs
each entry; the persistence effect writes `JSON.stringify(wardrobe)` back.
`JSON.parse` failure is handled outside this model (the `catch` yields `[]`);
the model starts from the parsed `JValue`.  `crypto.randomUUID()` is the
`fresh` oracle, indexed by the entry's position. -/

/-- A loaded wardrobe entry.  The repair step copies each field through JS
operators that do not coerce types, so the fields stay `JValue`s. -/
structure LoadedItem where
  id : JValue
  image : JValue
  category : JValue
  color : JValue
  season : JValue
  style : JValue
  description : JValue

/-- `JSON.stringify` image of one typed `ClothingItem`.  `JSON.stringify`
omits keys whose value is `undefined`, hence the optional `description`
key. -/
def serializeItem (c : ClothingItem) : JValue :=
  .obj ([("id", .str c.id), ("image", .str c.image),
         ("category", .str c.category), ("color", .str c.color),
         ("season", .arr (c.season.map .str)),
         ("style", .arr (c.style.map .str))] ++
        (match c.description with
         | some d => [("description", JValue.str d)]
         | none => []))

/-- The persisted wardrobe document. -/
def persistWardrobe (w : List ClothingItem) : JValue :=
  .arr (w.map serializeItem)

/-- The loaded form of a typed item (what the repair map produces on its
serialization). -/
def itemToLoaded (c : ClothingItem) : LoadedItem :=
  { id := .str c.id, image := .str c.image,
    category := .str c.category, color := .str c.color,
    season := .arr (c.season.map .str), style := .arr (c.style.map .str),
    description := .str (c.description.getD "") }

/-- The per-entry repair in the initializer:
`{...item, id: item.id || crypto.randomUUID(), category: item.category ||
"Unknown", color: item.color || "Unknown", image: item.image || "",
season: Array.isArray(item.season) ? item.season : [], style: ...,
description: item.description || ""}`.  Property access throws on a nullish
entry (caught by the surrounding `catch`). -/
def loadItem (fresh : String) (item : JValue) : Except Unit LoadedItem :=
  match item.get "id", item.get "category", item.get "color", item.get "image",
        item.get "season", item.get "style", item.get "description" with
  | .ok idv, .ok catv, .ok colv, .ok imgv, .ok seav, .ok styv, .ok desv =>
      .ok { id := jsOr idv (.str fresh),
            category := jsOr catv (.str "Unknown"),
            color := jsOr colv (.str "Unknown"),
            image := jsOr imgv (.str ""),
            season := if seav.isArr then seav else .arr [],
            style := if styv.isArr then styv else .arr [],
            description := jsOr desv (.str "") }
  | _, _, _, _, _, _, _ => .error ()

def loadItems (fresh : Nat → String) (i : Nat) :
    List JValue → Except Unit (List LoadedItem)
  | [] => .ok []
  | x :: xs =>
      match loadItem (fresh i) x, loadItems fresh (i + 1) xs with
      | .ok y, .ok ys => .ok (y :: ys)
      | _, _ => .error ()

/-- The wardrobe `useState` initializer from the parsed persisted value on:
`if (!Array.isArray(parsed)) return []; return parsed.map(...)`, with the
whole body in a `try` whose `catch` returns `[]`. -/
def loadWardrobe (fresh : Nat → String) (parsed : JValue) : List LoadedItem :=
  match parsed with
  | .arr items =>
      match loadItems fresh 0 items with
      | .ok l => l
      | .error _ => []
  | _ => []

/-- The fully-defaulted entry loaded from a record with no recognized
fields. -/
def defaultLoadedItem (fresh : String) : LoadedItem :=
  { id := .str fresh, image := .str "", category := .str "Unknown",
    color := .str "Unknown", season := .arr [], style := .arr [],
    description := .str "" }

/-- `handleAddItem`: `setWardrobe(prev => [item, ...prev])`. -/
def handleAddItem (item : ClothingItem) (prev : List ClothingItem) :
    List ClothingItem :=
  item :: prev

/-- The in-memory wardrobe together with the persisted document the App's
persistence effect has written for it. -/
structure AppStore where
  wardrobe : List ClothingItem
  persisted : JValue

/-- Adding an item: the state update followed by the persistence effect
(`localStorage.setItem("styleMate_wardrobe_v1", JSON.stringify(wardrobe))`). -/
def addItemStore (item : ClothingItem) (s : AppStore) : AppStore :=
  let w := handleAddItem item s.wardrobe
  { wardrobe := w, persisted := persistWardrobe w }

/-- `handleToggleFavorite`: remove every card with the outfit's id if one is
present, else prepend the outfit. -/
def toggleFavorite (outfit : OutfitCardData) (prev : List OutfitCardData) :
    List OutfitCardData :=
  if prev.any (fun f => f.id == outfit.id) then
    prev.filter (fun f => !(f.id == outfit.id))
  else
    outfit :: prev

/-! ## Outfit card renderer (components/OutfitCard.tsx) -/

/-- `wardrobe.filter(item => selectedIds.includes(item.id))`. -/
def resolvedSelectedItems (data : OutfitCardData) (wardrobe : List ClothingItem) :
    List ClothingItem :=
  wardrobe.filter (fun item => data.selectedItemIds.contains item.id)

/-- The truncated reasoning text shown on the card. -/
def shortReasoning (data : OutfitCardData) : String :=
  if data.reasoning = "" then ""
  else (String.intercalate " " ((data.reasoning.splitOn "\n").take 2)).take 220

/-- The renderer's suppression test: `OutfitCard` returns `null` exactly when
`selectedItems.length === 0 && missingItems.length === 0 &&
pinterestLooks.length === 0`. -/
def outfitCardHidden (data : OutfitCardData) (wardrobe : List ClothingItem) :
    Bool :=
  (resolvedSelectedItems data wardrobe).isEmpty &&
    data.missingItems.isEmpty && data.pinterestLooks.isEmpty

/-! ## Conversation log (components/StylistChat.tsx) -/

inductive ChatRole where
  | user
  | stylist
deriving DecidableEq

structure ChatMessageT where
  id : String
  role : ChatRole
  content : String
  data : Option StylistResponseJ
  timestamp : Nat

/-- The chat component's state relevant to `handleSend`. -/
structure ChatState where
  messages : List ChatMessageT
  input : String
  isLoading : Bool

/-- JavaScript `String.prototype.trim`: strip leading and trailing
whitespace. -/
def jsTrim (s : String) : String :=
  String.mk (((s.data.dropWhile Char.isWhitespace).reverse.dropWhile
    Char.isWhitespace).reverse)

/-- The synchronous prefix of `handleSend`, up to (and including the decision
about) issuing the AI request: the blank/in-flight guard, the optimistic user
append, the input reset and the loading flag.  The returned `Bool` records
whether `generateStylistResponse` is invoked. -/
def handleSendStart (text : String) (newId : String) (now : Nat)
    (s : ChatState) : ChatState × Bool :=
  if jsTrim text == "" || s.isLoading then (s, false)
  else
    ({ messages := s.messages ++
         [{ id := newId, role := .user, content := text, data := none,
            timestamp := now }],
       input := "", isLoading := true }, true)

/-! ## Multi-file upload loop (components/Wardrobe.tsx) -/

/-- The fields of `Partial<ClothingItem>` returned by the classification
call; each may be absent. -/
structure AnalysisResult where
  category : Option String
  color : Option String
  season : Option (List String)
  style : Option (List String)
  description : Option String

/-- JS `v || d` restricted to an optional string (absent and `""` are
falsy). -/
def jsOrStr (v : Option String) (d : String) : String :=
  match v with
  | some s => if s = "" then d else s
  | none => d

/-- One file of an upload batch, with the outcome of its read-and-classify
step (the external boundary; a rejection is the per-file failure the `catch`
logs). -/
structure UploadFile where
  name : String
  dataUrl : String
  outcome : Except Unit AnalysisResult

/-- The `newItem` built for a successfully classified file. -/
def mkUploadedItem (freshId : String) (dataUrl : String) (a : AnalysisResult) :
    ClothingItem :=
  { id := freshId, image := dataUrl,
    category := jsOrStr a.category "Unknown",
    color := jsOrStr a.color "Unknown",
    season := a.season.getD [],
    style := a.style.getD [],
    description := a.description }

/-- Observable end state of `handleFileUpload`: the wardrobe (successes
prepended one by one via `onAddItem`), the logged failure file names, and the
sequence of progress-indicator updates. -/
structure UploadState where
  wardrobe : List ClothingItem
  failures : List String
  progress : List (Nat × Nat)

/-- The body of the sequential `for` loop: progress update, then either add
the classified item or log the failure, then continue with the next file. -/
def processFiles (fresh : Nat → String) :
    List UploadFile → Nat → Nat → UploadState → UploadState
  | [], _, _, s => s
  | f :: fs, i, total, s =>
      let s1 : UploadState := { s with progress := s.progress ++ [(i + 1, total)] }
      let s2 : UploadState :=
        match f.outcome with
        | .ok a =>
            { s1 with wardrobe :=
                mkUploadedItem (fresh i) f.dataUrl a :: s1.wardrobe }
        | .error _ => { s1 with failures := s1.failures ++ [f.name] }
      processFiles fresh fs (i + 1) total s2

/-- `handleFileUpload`: early return on an empty selection, otherwise the
initial `setUploadProgress({current: 0, total})` followed by the loop. -/
def handleFileUpload (fresh : Nat → String) (files : List UploadFile)
    (w0 : List ClothingItem) : UploadState :=
  if files.isEmpty then { wardrobe := w0, failures := [], progress := [] }
  else
    processFiles fresh files 0 files.length
      { wardrobe := w0, failures := [], progress := [(0, files.length)] }

/-- The items the loop adds, in processing order. -/
def uploadSuccessItems (fresh : Nat → String) :
    List UploadFile → Nat → List ClothingItem
  | [], _ => []
  | f :: fs, i =>
      match f.outcome with
      | .ok a => mkUploadedItem (fresh i) f.dataUrl a ::
          uploadSuccessItems fresh fs (i + 1)
      | .error _ => uploadSuccessItems fresh fs (i + 1)

/-! ## Outfit generation guard (services/geminiService.ts, `generateOutfit`) -/

/-- The network request `generateOutfit` would issue, as assembled before the
call. -/
structure OutfitRequest where
  occasion : String
  notes : String
  wardrobeDesc : String

/-- The inventory listing interpolated into the prompt. -/
def wardrobeDescOf (wardrobe : List ClothingItem) : String :=
  String.intercalate "\n" (wardrobe.map (fun item =>
    "ID: " ++ item.id ++ " - " ++ item.color ++ " " ++ item.category ++
      " (" ++ String.intercalate ", " item.style ++ ")"))

/-- `generateOutfit` up to the network boundary: the empty-wardrobe guard
(`if (!wardrobe.length) throw new Error("Wardrobe is empty")`) precedes any
prompt construction or network call. -/
def generateOutfitRequest (wardrobe : List ClothingItem)
    (occasion notes : String) : Except String OutfitRequest :=
  if wardrobe.length = 0 then .error "Wardrobe is empty"
  else .ok { occasion, notes, wardrobeDesc := wardrobeDescOf wardrobe }

/-- The same guard in the other service variant
(`if (!wardrobe.length) throw new Error("Wardrobe empty")`). -/
def generateOutfitRequestAlt (wardrobe : List ClothingItem)
    (occasion notes : String) : Except String OutfitRequest :=
  if wardrobe.length = 0 then .error "Wardrobe empty"
  else .ok { occasion, notes, wardrobeDesc := wardrobeDescOf wardrobe }

/-! ## Concrete data used in the theorems below -/

/-- A payload whose fields, where present and non-null, have the types of the
declared response schema (`selectedItemIds` absent, null, or an array). -/
def selFieldNormal (parsed : JValue) : Prop :=
  ∀ v, parsed.get "selectedItemIds" = .ok v →
    (v.nullish = true ∨ v.isArr = true)

/-- A persisted wardrobe entry that survives the load-time repair unchanged:
its `id`, `category` and `color` are non-empty (empty strings are falsy, so
`||` would replace them with the defaults). -/
def wellFormedItem (c : ClothingItem) : Prop :=
  c.id ≠ "" ∧ c.category ≠ "" ∧ c.color ≠ ""

/-- A schema-violating payload: valid JSON, but `selectedItemIds` holds a
string instead of an array. -/
def stringSelPayload : JValue := .obj [("selectedItemIds", .str "not-a-list")]

/-- The card the normalizer produces for the empty-object payload. -/
def emptyPayloadCard : JOutfitCard :=
  { id := "generated-outfit", title := "Your Outfit", description := .undefined,
    matchScore := 100, selectedItemIds := .arr [], missingItems := .arr [],
    pinterestLooks := .arr [], reasoning := .str "" }

/-- The legacy-schema payload of the specification's example. -/
def legacyPayload : JValue :=
  .obj [("inspirationImages",
          .arr [.obj [("title", .str "A"), ("imageUrl", .str "u1"),
                      ("link", .str "l1")]]),
        ("shopping",
          .arr [.obj [("name", .str "Shoes"),
                      ("links", .arr [.obj [("label", .str "Amazon"),
                                            ("url", .str "a1")]])]])]

/-- The same legacy payload with the shopping link's `label` absent. -/
def legacyPayloadNoLabel : JValue :=
  .obj [("shopping",
          .arr [.obj [("name", .str "Shoes"),
                      ("links", .arr [.obj [("url", .str "a1")]])]])]

/-- A well-formed wardrobe entry. -/
def sampleItem : ClothingItem :=
  { id := "a1", image := "img-a1", category := "Shirt", color := "Blue",
    season := ["Summer"], style := ["Casual"], description := some "blue shirt" }

/-- An outfit card with reasoning text but no resolvable list content. -/
def reasoningOnlyCard : OutfitCardData :=
  { id := "c1", title := "Your Outfit", description := "", matchScore := 100,
    selectedItemIds := [], missingItems := [], pinterestLooks := [],
    reasoning := "Wear the navy blazer with white sneakers." }

/-- A first generated-outfit card. -/
def favCardA : OutfitCardData :=
  { id := "generated-outfit", title := "First", description := "",
    matchScore := 100, selectedItemIds := ["a1"], missingItems := [],
    pinterestLooks := [], reasoning := "" }

/-- A second, different generated-outfit card sharing the constant id. -/
def favCardB : OutfitCardData :=
  { id := "generated-outfit", title := "Second", description := "",
    matchScore := 100, selectedItemIds := ["b2"], missingItems := [],
    pinterestLooks := [], reasoning := "" }

/-- A simple favorite used to exercise the toggle. -/
def favCardPlain : OutfitCardData :=
  { id := "o1", title := "", description := "", matchScore := 100,
    selectedItemIds := [], missingItems := [], pinterestLooks := [],
    reasoning := "" }

/-- The value the alternative stylist mapping produces for the empty-object
result. -/
def altEmptyResp : StylistResponseJ :=
  { mode := "wardrobe_outfit", message := .str "Here is a suggestion.",
    outfits := [{ id := "generated-outfit", title := "Your Outfit",
                  description := .str "Generated from wardrobe",
                  matchScore := 100, selectedItemIds := .arr [],
                  missingItems := .arr [], pinterestLooks := .arr [],
                  reasoning := .str "" }],
    suggestions := .arr [] }

/-- First file of a three-file batch: classification succeeds. -/
def fileA : UploadFile :=
  { name := "a.jpg", dataUrl := "data-a",
    outcome := .ok { category := some "Shirt", color := some "Blue",
                     season := some ["Summer"], style := some ["Casual"],
                     description := some "a blue shirt" } }

/-- Second file of the batch: its read-and-classify step fails. -/
def fileB : UploadFile :=
  { name := "b.jpg", dataUrl := "data-b", outcome := .error () }

/-- Third file of the batch: classification succeeds. -/
def fileC : UploadFile :=
  { name := "c.jpg", dataUrl := "data-c",
    outcome := .ok { category := some "Jeans", color := some "Black",
                     season := none, style := none, description := none } }

/-! ## Shared lemmas -/

/-- Normalizing with `?? []` never leaves a nullish value. -/
lemma jsCoalesce_not_nullish (a : JValue) (l : List JValue) :
    (jsCoalesce a (.arr l)).nullish = false := by
  cases a <;> simp [jsCoalesce, JValue.nullish]

/-- Normalizing with `?? []` yields an array whenever the input was nullish
or already an array. -/
lemma jsCoalesce_arr_of (a : JValue) (l : List JValue)
    (h : a.nullish = true ∨ a.isArr = true) :
    (jsCoalesce a (.arr l)).isArr = true := by
  cases a <;> simp_all [jsCoalesce, JValue.nullish, JValue.isArr]

/-- Whenever the normalizer's mapping step completes, the response carries
exactly one card of the fixed shape built at the end of the `try` block. -/
lemma mapStep_ok_shape (parsed : JValue) (now : Nat) (r : StylistResponseJ)
    (h : mapStep parsed now = .ok r) :
    ∃ sel0 msg looks missing,
      parsed.get "selectedItemIds" = .ok sel0 ∧
      r.outfits = [{ id := "generated-outfit", title := "Your Outfit",
                     description := msg, matchScore := 100,
                     selectedItemIds := jsCoalesce sel0 (.arr []),
                     missingItems := .arr missing, pinterestLooks := .arr looks,
                     reasoning := jsOr msg (.str "") }] := by
  unfold mapStep at h
  split at h
  · rename_i sel0 insp0 shop0 sugg0 msg hsel hinsp hshop hsugg hmsg
    split at h
    · rename_i looks missing hlooks hmiss
      simp only [Except.ok.injEq] at h
      subst h
      exact ⟨sel0, msg, looks, missing, hsel, rfl⟩
    · simp at h
  · simp at h

lemma jsOr_undefined (b : JValue) : jsOr .undefined b = b := rfl

lemma jsOr_str_of_ne (s d : String) (h : s ≠ "") :
    jsOr (.str s) (.str d) = .str s := by
  simp [jsOr, JValue.truthy, h]

lemma jsOr_str_empty_default (s : String) : jsOr (.str s) (.str "") = .str s := by
  by_cases h : s = ""
  · subst h; rfl
  · simp [jsOr, JValue.truthy, h]

/-- The load-time repair is the identity (up to the loaded representation) on
the serialization of a well-formed item. -/
lemma loadItem_serialize (f : String) (c : ClothingItem)
    (h : wellFormedItem c) :
    loadItem f (serializeItem c) = .ok (itemToLoaded c) := by
  obtain ⟨hid, hcat, hcol⟩ := h
  rcases hd : c.description with _ | d <;>
    simp [loadItem, serializeItem, itemToLoaded, JValue.get, List.find?, hd,
      JValue.isArr, jsOr_str_of_ne _ _ hid, jsOr_str_of_ne _ _ hcat,
      jsOr_str_of_ne _ _ hcol, jsOr_str_empty_default, jsOr_undefined]

lemma loadItems_serialize (fresh : Nat → String) (w : List ClothingItem) :
    ∀ i, (∀ c ∈ w, wellFormedItem c) →
      loadItems fresh i (w.map serializeItem) = .ok (w.map itemToLoaded) := by
  induction w with
  | nil => intro i _; rfl
  | cons c cs ih =>
    intro i hwf
    have hc := hwf c (List.mem_cons_self c cs)
    have hcs : ∀ x ∈ cs, wellFormedItem x :=
      fun x hx => hwf x (List.mem_cons_of_mem c hx)
    simp only [List.map_cons, loadItems, loadItem_serialize (fresh i) c hc,
      ih (i + 1) hcs]

/-- `prev.some(f => f.id === outfit.id)` succeeds exactly when the id occurs
among the favorites' ids. -/
lemma any_id_iff (favs : List OutfitCardData) (i : String) :
    favs.any (fun f => f.id == i) = true ↔ i ∈ favs.map (fun f => f.id) := by
  simp [List.any_eq_true, List.mem_map]

/-- Unfolded behavior of the sequential upload loop: order-preserving
accumulation of successes, failures and progress updates, independent of
which items fail. -/
lemma processFiles_spec (fresh : Nat → String) :
    ∀ (files : List UploadFile) (i total : Nat) (s : UploadState),
      processFiles fresh files i total s =
        { wardrobe := (uploadSuccessItems fresh files i).reverse ++ s.wardrobe,
          failures := s.failures ++
            (files.filter (fun f => !f.outcome.isOk)).map (fun f => f.name),
          progress := s.progress ++
            (List.range' (i + 1) files.length).map (fun k => (k, total)) } := by
  intro files
  induction files with
  | nil =>
    intro i total s
    simp [processFiles, uploadSuccessItems]
  | cons f fs ih =>
    intro i total s
    cases ho : f.outcome with
    | ok a =>
      simp only [processFiles, ho]
      rw [ih]
      simp [uploadSuccessItems, ho, Except.isOk, Except.toBool,
        List.filter_cons, List.range'_succ, List.append_assoc]
    | error e =>
      simp only [processFiles, ho]
      rw [ih]
      simp [uploadSuccessItems, ho, Except.isOk, Except.toBool,
        List.filter_cons, List.range'_succ, List.append_assoc]

/-! ## Claims -/

/-- Claim C1 (amended): whenever the mapping step of
`generateStylistResponse` completes and produces an outfit card, the card's
`missingItems` and `pinterestLooks` are always defined sequences (possibly
empty) and its `selectedItemIds` is never null, undefined, or absent;
`selectedItemIds` is moreover a defined sequence whenever the payload's
`selectedItemIds` field is absent, null, or itself a sequence.  (A non-array,
non-nullish `selectedItemIds` — e.g. a string — is passed through unchanged,
which refutes the unconditional claim; see the counterexample.) -/
theorem C1_normalized_card_sequences :
    ∀ (parsed : JValue) (now : Nat) (card : JOutfitCard),
      card ∈ (generateStylistResponse parsed now).outfits →
      card.missingItems.isArr = true ∧ card.pinterestLooks.isArr = true ∧
      card.selectedItemIds.nullish = false ∧
      (selFieldNormal parsed → card.selectedItemIds.isArr = true) := by
  intro parsed now card hmem
  unfold generateStylistResponse at hmem
  cases hms : mapStep parsed now with
  | error e => rw [hms] at hmem; simp at hmem
  | ok r =>
    rw [hms] at hmem
    obtain ⟨sel0, msg, looks, missing, hsel, houts⟩ :=
      mapStep_ok_shape parsed now r hms
    rw [houts] at hmem
    simp only [List.mem_singleton] at hmem
    subst hmem
    refine ⟨rfl, rfl, jsCoalesce_not_nullish _ _, fun hnorm => ?_⟩
    exact jsCoalesce_arr_of _ _ (hnorm sel0 hsel)

/-- Claim C1, counterexample: for the malformed payload
`{"selectedItemIds": "not-a-list"}` the mapping step completes and produces a
card whose `selectedItemIds` is the string itself — not a defined sequence,
contradicting the claim as stated. -/
theorem C1_counterexample :
    ((generateStylistResponse stringSelPayload 0).outfits.map
        fun c => c.selectedItemIds) = [.str "not-a-list"] ∧
    JValue.isArr (.str "not-a-list") = false :=
  ⟨rfl, rfl⟩

/-- Claim C1, witness: the amended theorem applied to the empty-object
payload. -/
theorem C1_witness :
    emptyPayloadCard ∈ (generateStylistResponse (JValue.obj []) 0).outfits ∧
    emptyPayloadCard.missingItems.isArr = true ∧
    emptyPayloadCard.pinterestLooks.isArr = true ∧
    emptyPayloadCard.selectedItemIds.nullish = false ∧
    emptyPayloadCard.selectedItemIds.isArr = true := by
  have hmem : emptyPayloadCard ∈
      (generateStylistResponse (JValue.obj []) 0).outfits := by
    have houts : (generateStylistResponse (JValue.obj []) 0).outfits =
        [emptyPayloadCard] := rfl
    rw [houts]
    exact List.mem_singleton.mpr rfl
  have hnorm : selFieldNormal (JValue.obj []) := by
    intro v hv
    simp [JValue.get, List.find?] at hv
    subst hv
    exact Or.inl rfl
  obtain ⟨h1, h2, h3, h4⟩ :=
    C1_normalized_card_sequences (JValue.obj []) 0 emptyPayloadCard hmem
  exact ⟨hmem, h1, h2, h3, h4 hnorm⟩

/-- Claim C2: on the legacy-schema payload
`{inspirationImages:[{title:"A",imageUrl:"u1",link:"l1"}],
shopping:[{name:"Shoes",links:[{label:"Amazon",url:"a1"}]}]}` the normalizer
produces exactly one `pinterestLooks` entry with `previewImageUrl="u1"` and
`pinterestUrl="l1"`, and exactly one `missingItems` entry with exactly one
shopping option `{storeName:"Amazon", url:"a1"}`; when the link's `label` is
absent the `storeName` defaults to `"Store"`. -/
theorem C2_legacy_field_mapping :
    ((generateStylistResponse legacyPayload 0).outfits.map
        fun c => c.pinterestLooks) =
      [.arr [.obj [("title", .str "A"), ("description", .str ""),
                   ("previewImageUrl", .str "u1"),
                   ("pinterestUrl", .str "l1")]]] ∧
    ((generateStylistResponse legacyPayload 0).outfits.map
        fun c => c.missingItems) =
      [.arr [.obj [("id", .str "missing-0-0"), ("name", .str "Shoes"),
                   ("pinterestQuery", .str "Shoes"),
                   ("shoppingOptions",
                     .arr [.obj [("storeName", .str "Amazon"),
                                 ("url", .str "a1"), ("price", .str "N/A"),
                                 ("type", .str "online")]])]]] ∧
    ((generateStylistResponse legacyPayloadNoLabel 0).outfits.map
        fun c => c.missingItems) =
      [.arr [.obj [("id", .str "missing-0-0"), ("name", .str "Shoes"),
                   ("pinterestQuery", .str "Shoes"),
                   ("shoppingOptions",
                     .arr [.obj [("storeName", .str "Store"),
                                 ("url", .str "a1"), ("price", .str "N/A"),
                                 ("type", .str "online")]])]]] :=
  ⟨rfl, rfl, rfl⟩

/-- Claim C3: persisting a wardrobe of well-formed items and reloading it
yields an equal collection; reloading a collection with one malformed entry
keeps the count and defaults that entry's missing fields (fresh id,
"Unknown" category/color, empty season/style, empty image/description)
instead of dropping it; a persisted value that is not an array loads as the
empty collection. -/
theorem C3_wardrobe_roundtrip :
    (∀ (w : List ClothingItem) (fresh : Nat → String),
       (∀ c ∈ w, wellFormedItem c) →
       loadWardrobe fresh (persistWardrobe w) = w.map itemToLoaded) ∧
    (∀ (fresh : Nat → String) (good : ClothingItem), wellFormedItem good →
       loadWardrobe fresh (.arr [serializeItem good, .obj []]) =
         [itemToLoaded good, defaultLoadedItem (fresh 1)]) ∧
    (∀ (fresh : Nat → String) (v : JValue), v.isArr = false →
       loadWardrobe fresh v = []) := by
  refine ⟨?_, ?_, ?_⟩
  · intro w fresh hwf
    simp only [loadWardrobe, persistWardrobe, loadItems_serialize fresh w 0 hwf]
  · intro fresh good hwf
    have h1 : loadItem (fresh 0) (serializeItem good) = .ok (itemToLoaded good) :=
      loadItem_serialize (fresh 0) good hwf
    have h2 : loadItem (fresh 1) (JValue.obj []) =
        .ok (defaultLoadedItem (fresh 1)) := rfl
    simp only [loadWardrobe, loadItems, h1, h2]
  · intro fresh v hv
    cases v <;> simp_all [loadWardrobe, JValue.isArr]

/-- Claim C3, witness: the round-trip, the malformed-entry repair and the
non-array fallback at concrete inputs. -/
theorem C3_witness :
    wellFormedItem sampleItem ∧
    loadWardrobe (fun n => toString n) (persistWardrobe [sampleItem]) =
      [itemToLoaded sampleItem] ∧
    loadWardrobe (fun n => toString n) (.arr [serializeItem sampleItem, .obj []]) =
      [itemToLoaded sampleItem, defaultLoadedItem "1"] ∧
    loadWardrobe (fun n => toString n) (.str "oops") = [] := by
  have hwf : wellFormedItem sampleItem := by
    refine ⟨?_, ?_, ?_⟩ <;> decide
  refine ⟨hwf, ?_, ?_, ?_⟩
  · exact C3_wardrobe_roundtrip.1 [sampleItem] (fun n => toString n)
      (by intro c hc; simp only [List.mem_singleton] at hc; subst hc; exact hwf)
  · exact C3_wardrobe_roundtrip.2.1 (fun n => toString n) sampleItem hwf
  · exact C3_wardrobe_roundtrip.2.2 (fun n => toString n) (.str "oops") rfl

/-- Claim C4 (amended): the outfit-card renderer suppresses the card (returns
null) if and only if all three of the resolved selected items, the
`missingItems` and the `pinterestLooks` are empty — regardless of whether
reasoning text is present.  (The claim's additional "AND no reasoning text"
condition does not hold; see the counterexample.) -/
theorem C4_hidden_iff_lists_empty :
    ∀ (data : OutfitCardData) (wardrobe : List ClothingItem),
      (outfitCardHidden data wardrobe = true ↔
        resolvedSelectedItems data wardrobe = [] ∧
          data.missingItems = [] ∧ data.pinterestLooks = []) ∧
      (∀ r : String,
        outfitCardHidden { data with reasoning := r } wardrobe =
          outfitCardHidden data wardrobe) := by
  intro data wardrobe
  constructor
  · simp [outfitCardHidden, List.isEmpty_iff, and_assoc]
  · intro r; rfl

/-- Claim C4, counterexample: a card with non-empty reasoning text but empty
lists is suppressed by the renderer, although the claim says content should
be rendered when reasoning text is present. -/
theorem C4_counterexample :
    outfitCardHidden reasoningOnlyCard [] = true ∧
    reasoningOnlyCard.reasoning ≠ "" :=
  ⟨rfl, by decide⟩

/-- Claim C4, witness: the amended theorem applied to the concrete card. -/
theorem C4_witness :
    outfitCardHidden reasoningOnlyCard [] = true ∧
    outfitCardHidden { reasoningOnlyCard with reasoning := "" } [] =
      outfitCardHidden reasoningOnlyCard [] := by
  constructor
  · exact (C4_hidden_iff_lists_empty reasoningOnlyCard []).1.mpr ⟨rfl, rfl, rfl⟩
  · exact (C4_hidden_iff_lists_empty reasoningOnlyCard []).2 ""

/-- Claim C5: toggling an absent id adds it and toggling a present id removes
it; the add-then-remove composition is the exact identity on the favorites
state, and double toggling always restores the favorites set's id-keyed
membership. -/
theorem C5_toggle_involution :
    ∀ (favs : List OutfitCardData) (outfit : OutfitCardData),
      (outfit.id ∉ favs.map (fun f => f.id) →
        toggleFavorite outfit (toggleFavorite outfit favs) = favs) ∧
      (outfit.id ∉ favs.map (fun f => f.id) →
        outfit.id ∈ (toggleFavorite outfit favs).map (fun f => f.id)) ∧
      (outfit.id ∈ favs.map (fun f => f.id) →
        outfit.id ∉ (toggleFavorite outfit favs).map (fun f => f.id)) ∧
      (∀ x, x ∈ (toggleFavorite outfit (toggleFavorite outfit favs)).map
          (fun f => f.id) ↔ x ∈ favs.map (fun f => f.id)) := by
  intro favs outfit
  by_cases hmem : outfit.id ∈ favs.map (fun f => f.id)
  · -- the id is already favorited: first toggle filters it out,
    -- second toggle prepends the outfit again
    have hany : favs.any (fun f => f.id == outfit.id) = true :=
      (any_id_iff favs outfit.id).mpr hmem
    have ht1 : toggleFavorite outfit favs =
        favs.filter (fun f => !(f.id == outfit.id)) := by
      simp [toggleFavorite, hany]
    have hany2 : (favs.filter (fun f => !(f.id == outfit.id))).any
        (fun f => f.id == outfit.id) = false := by
      simp [List.any_eq_false]
    have ht2 : toggleFavorite outfit
          (favs.filter (fun f => !(f.id == outfit.id))) =
        outfit :: favs.filter (fun f => !(f.id == outfit.id)) := by
      simp [toggleFavorite, hany2]
    refine ⟨fun h => absurd hmem h, fun h => absurd hmem h,
      fun _ => ?_, fun x => ?_⟩
    · rw [ht1]
      intro hx
      obtain ⟨f, hf, hfe⟩ := List.mem_map.mp hx
      have := (List.mem_filter.mp hf).2
      simp [hfe] at this
    · rw [ht1, ht2]
      simp only [List.map_cons, List.mem_cons, List.mem_map, List.mem_filter]
      constructor
      · rintro (rfl | ⟨f, ⟨hf, hpred⟩, rfl⟩)
        · exact List.mem_map.mp hmem
        · exact ⟨f, hf, rfl⟩
      · rintro ⟨f, hf, rfl⟩
        by_cases hxe : f.id = outfit.id
        · exact Or.inl hxe
        · exact Or.inr ⟨f, ⟨hf, by simp [hxe]⟩, rfl⟩
  · -- the id is absent: first toggle prepends, second filters it back out
    have hany : favs.any (fun f => f.id == outfit.id) = false := by
      cases h : favs.any (fun f => f.id == outfit.id) with
      | true => exact absurd ((any_id_iff favs outfit.id).mp h) hmem
      | false => rfl
    have hall : ∀ f ∈ favs, (!(f.id == outfit.id)) = true := by
      intro f hf
      have hne : f.id ≠ outfit.id := fun he => hmem (List.mem_map.mpr ⟨f, hf, he⟩)
      simp [hne]
    have ht1 : toggleFavorite outfit favs = outfit :: favs := by
      simp [toggleFavorite, hany]
    have hdouble : toggleFavorite outfit (toggleFavorite outfit favs) = favs := by
      rw [ht1]
      have hany2 : (outfit :: favs).any (fun f => f.id == outfit.id) = true := by
        simp
      simp [toggleFavorite, hany2, List.filter_cons, List.filter_eq_self.mpr hall]
    refine ⟨fun _ => hdouble, fun _ => ?_, fun h => absurd h hmem, fun x => ?_⟩
    · rw [ht1]; simp
    · rw [hdouble]

/-- Claim C5, witness: add-then-remove is the identity on an initially empty
favorites set, and the first toggle makes the id a member. -/
theorem C5_witness :
    toggleFavorite favCardPlain (toggleFavorite favCardPlain []) = [] ∧
    favCardPlain.id ∈ (toggleFavorite favCardPlain []).map (fun f => f.id) :=
  ⟨(C5_toggle_involution [] favCardPlain).1 (by simp),
   (C5_toggle_involution [] favCardPlain).2.1 (by simp)⟩

/-- Claim C6: sending empty or whitespace-only text, or sending any text
while a request is in flight, is a no-op — the state is unchanged (no log
entry appended) and no AI call is issued. -/
theorem C6_send_noop :
    ∀ (s : ChatState) (newId : String) (now : Nat),
      handleSendStart "" newId now s = (s, false) ∧
      handleSendStart "   " newId now s = (s, false) ∧
      (∀ text, s.isLoading = true →
        handleSendStart text newId now s = (s, false)) := by
  intro s newId now
  refine ⟨rfl, rfl, ?_⟩
  intro text h
  simp [handleSendStart, h]

/-- Claim C6, witness: the guard at a concrete idle and a concrete in-flight
state. -/
theorem C6_witness :
    handleSendStart "" "m1" 7 { messages := [], input := "", isLoading := false } =
      ({ messages := [], input := "", isLoading := false }, false) ∧
    handleSendStart "outfit for tonight" "m1" 7
        { messages := [], input := "", isLoading := true } =
      ({ messages := [], input := "", isLoading := true }, false) :=
  ⟨(C6_send_noop { messages := [], input := "", isLoading := false } "m1" 7).1,
   (C6_send_noop { messages := [], input := "", isLoading := true } "m1" 7).2.2
     "outfit for tonight" rfl⟩

/-- Claim C7: the upload loop processes every file in order and never aborts
early — the wardrobe ends with exactly the successfully classified items (in
most-recent-first order) on top of the original wardrobe, the failures log
holds exactly the names of the failed files, and for a non-empty batch the
progress indicator runs 0/n, 1/n, ..., n/n, finishing at n/n regardless of
failures. -/
theorem C7_upload_isolation :
    ∀ (fresh : Nat → String) (files : List UploadFile) (w0 : List ClothingItem),
      (handleFileUpload fresh files w0).wardrobe =
        (uploadSuccessItems fresh files 0).reverse ++ w0 ∧
      (handleFileUpload fresh files w0).failures =
        (files.filter (fun f => !f.outcome.isOk)).map (fun f => f.name) ∧
      (files ≠ [] →
        (handleFileUpload fresh files w0).progress =
          (0, files.length) ::
            (List.range' 1 files.length).map (fun k => (k, files.length)) ∧
        (handleFileUpload fresh files w0).progress.getLast? =
          some (files.length, files.length)) := by
  intro fresh files w0
  by_cases hne : files = []
  · subst hne
    refine ⟨rfl, rfl, fun h => absurd rfl h⟩
  · have hinit : handleFileUpload fresh files w0 =
        processFiles fresh files 0 files.length
          { wardrobe := w0, failures := [], progress := [(0, files.length)] } := by
      simp [handleFileUpload, List.isEmpty_iff, hne]
    rw [hinit, processFiles_spec]
    refine ⟨rfl, rfl, fun _ => ⟨rfl, ?_⟩⟩
    obtain ⟨m, hm⟩ : ∃ m, files.length = m + 1 :=
      ⟨files.length - 1, by
        have : 0 < files.length := List.length_pos.mpr hne
        omega⟩
    simp only [hm]
    rw [List.range'_concat 1 m]
    simp only [List.map_append, List.map_cons, List.map_nil]
    rw [← List.append_assoc, List.getLast?_concat]
    have h11 : 1 + 1 * m = m + 1 := by omega
    rw [h11]

/-- Claim C7, witness: for the batch `[a.jpg, b.jpg, c.jpg]` where `b.jpg`
fails, the failures log reads `["b.jpg"]`, the final progress reads 3/3, and
the wardrobe holds the two classified items. -/
theorem C7_witness :
    (handleFileUpload (fun n => toString n) [fileA, fileB, fileC] []).failures =
      ["b.jpg"] ∧
    (handleFileUpload (fun n => toString n) [fileA, fileB, fileC] []).progress.getLast? =
      some (3, 3) ∧
    (handleFileUpload (fun n => toString n) [fileA, fileB, fileC] []).wardrobe =
      (uploadSuccessItems (fun n => toString n) [fileA, fileB, fileC] 0).reverse ++ [] := by
  obtain ⟨hw, hf, hp⟩ :=
    C7_upload_isolation (fun n => toString n) [fileA, fileB, fileC] []
  refine ⟨?_, ?_, hw⟩
  · rw [hf]; rfl
  · exact (hp (List.cons_ne_nil _ _)).2

/-- Claim C8: `generateOutfit` invoked with an empty wardrobe fails locally
with the domain error "Wardrobe is empty" (resp. "Wardrobe empty" in the
other service variant) before any request is assembled; for a non-empty
wardrobe the guard is not taken. -/
theorem C8_empty_wardrobe_guard :
    ∀ (occasion notes : String),
      generateOutfitRequest [] occasion notes = .error "Wardrobe is empty" ∧
      generateOutfitRequestAlt [] occasion notes = .error "Wardrobe empty" ∧
      (∀ w : List ClothingItem, w ≠ [] →
        (generateOutfitRequest w occasion notes).isOk = true ∧
        (generateOutfitRequestAlt w occasion notes).isOk = true) := by
  intro occasion notes
  refine ⟨rfl, rfl, ?_⟩
  intro w hw
  have hlen : w.length ≠ 0 := fun h => hw (List.length_eq_zero.mp h)
  constructor <;>
    simp [generateOutfitRequest, generateOutfitRequestAlt, hlen, Except.isOk,
      Except.toBool]

/-- Claim C8, witness: the guard at the empty wardrobe and at a one-item
wardrobe. -/
theorem C8_witness :
    generateOutfitRequest [] "party" "" = .error "Wardrobe is empty" ∧
    (generateOutfitRequest [sampleItem] "party" "").isOk = true := by
  obtain ⟨h1, _, h3⟩ := C8_empty_wardrobe_guard "party" ""
  exact ⟨h1, (h3 [sampleItem] (List.cons_ne_nil _ _)).1⟩

/-- Claim C9: adding an item inserts it at the front of the wardrobe, leaves
the previously present items unchanged and in their relative order, persists
the updated collection, is given a caller-constructed fresh id by the upload
path, and preserves id-uniqueness when the new id is fresh. -/
theorem C9_add_front :
    ∀ (s : AppStore) (item : ClothingItem),
      (addItemStore item s).wardrobe = item :: s.wardrobe ∧
      (addItemStore item s).wardrobe.tail = s.wardrobe ∧
      (addItemStore item s).persisted = persistWardrobe (item :: s.wardrobe) ∧
      (∀ (freshId dataUrl : String) (a : AnalysisResult),
        (mkUploadedItem freshId dataUrl a).id = freshId) ∧
      (item.id ∉ s.wardrobe.map (fun c => c.id) →
        (s.wardrobe.map (fun c => c.id)).Nodup →
        ((addItemStore item s).wardrobe.map (fun c => c.id)).Nodup) := by
  intro s item
  refine ⟨rfl, rfl, rfl, fun _ _ _ => rfl, ?_⟩
  intro hni hnd
  have hni2 : ∀ x ∈ s.wardrobe, ¬x.id = item.id := by
    intro x hx he
    exact hni (List.mem_map.mpr ⟨x, hx, he⟩)
  simpa [addItemStore, handleAddItem] using ⟨hni2, hnd⟩

/-- Claim C9, witness: adding the sample item to the empty store. -/
theorem C9_witness :
    (addItemStore sampleItem
        { wardrobe := [], persisted := persistWardrobe [] }).wardrobe =
      [sampleItem] ∧
    ((addItemStore sampleItem
        { wardrobe := [], persisted := persistWardrobe [] }).wardrobe.map
      (fun c => c.id)).Nodup := by
  obtain ⟨h1, _, _, _, h5⟩ :=
    C9_add_front { wardrobe := [], persisted := persistWardrobe [] } sampleItem
  exact ⟨h1, h5 (by simp) (by simp)⟩

/-- Claim C10: every successful stylist response (in both service variants)
carries exactly one outfit card with the constant id "generated-outfit" and
matchScore 100, and favoriting a second generated card while one with that id
is already favorited toggles on the same key — afterwards no favorite with
the id remains, rather than both being stored. -/
theorem C10_constant_card_identity :
    ∀ (parsed : JValue) (now : Nat) (r : StylistResponseJ) (result : JValue)
      (r2 : StylistResponseJ),
      (mapStep parsed now = .ok r →
        r.outfits.map (fun c => c.id) = ["generated-outfit"] ∧
        r.outfits.map (fun c => c.matchScore) = [100]) ∧
      (altMapStep result = .ok r2 →
        r2.outfits.map (fun c => c.id) = ["generated-outfit"] ∧
        r2.outfits.map (fun c => c.matchScore) = [100]) ∧
      (∀ (favs : List OutfitCardData) (c1 c2 : OutfitCardData),
        c1.id = "generated-outfit" → c2.id = "generated-outfit" → c1 ∈ favs →
        ∀ f ∈ toggleFavorite c2 favs, f.id ≠ "generated-outfit") := by
  intro parsed now r result r2
  refine ⟨?_, ?_, ?_⟩
  · intro h
    obtain ⟨sel0, msg, looks, missing, _, houts⟩ := mapStep_ok_shape parsed now r h
    rw [houts]
    exact ⟨rfl, rfl⟩
  · intro h
    unfold altMapStep at h
    split at h
    · simp only [Except.ok.injEq] at h
      subst h
      exact ⟨rfl, rfl⟩
    · simp at h
  · intro favs c1 c2 h1 h2 hmem f hf hfid
    have hany : favs.any (fun g => g.id == c2.id) = true := by
      apply (any_id_iff favs c2.id).mpr
      exact List.mem_map.mpr ⟨c1, hmem, by rw [h1, h2]⟩
    simp only [toggleFavorite, hany, if_true] at hf
    have hpred := (List.mem_filter.mp hf).2
    simp [hfid, h2] at hpred

/-- Claim C10, witness: the constant card facts at the empty-object payloads
and the same-key toggle for two distinct cards sharing the constant id. -/
theorem C10_witness :
    ((generateStylistResponse (JValue.obj []) 0).outfits.map fun c => c.id) =
      ["generated-outfit"] ∧
    (altEmptyResp.outfits.map fun c => c.matchScore) = [100] ∧
    (∀ f ∈ toggleFavorite favCardB [favCardA], f.id ≠ "generated-outfit") := by
  obtain ⟨h1, h2, h3⟩ := C10_constant_card_identity (JValue.obj []) 0
    (generateStylistResponse (JValue.obj []) 0) (JValue.obj []) altEmptyResp
  refine ⟨(h1 rfl).1, (h2 rfl).2, ?_⟩
  exact h3 [favCardA] favCardA favCardB rfl rfl (List.mem_singleton.mpr rfl)

end StyleMate
